import Mathlib

/-
Verification of the beehive actor runtime: a shallow embedding of the
per-bee transaction machine (package bh, file examples/te/main.go of the
provided sources, second document: localBee and its RcvContext methods)
and of the network server's connection handler (actor/server.go).

Modelling conventions:
  * Message payloads, app names, operation-log entries and handlers are
    opaque and represented by Nat.
  * Side effects (forwarding a message to the network, submitting a
    transaction record to the replication service, applying the pending
    operation log to the local partition, notifying replicas of a commit)
    are recorded as an explicit list of Event values, in the order the
    corresponding calls happen in the Go code.
  * External collaborators that are not part of the sources (the
    replication service behind replicateTx / notifyCommitTx, and the
    transactional state layer behind txState()) are modelled from the
    spec; each such definition carries a doc comment saying so.
  * glog.Fatal / glog.Fatalf terminate the process; they are modelled by
    a distinguished fatal outcome that carries no further state.
-/

/-- Identity of one actor instance, from the data model: app name +
instance id + hosting node. App names are opaque Nats here. -/
structure BeeID where
  HiveID : Nat
  AppName : Nat
  ID : Nat
  deriving DecidableEq, Repr

/-- Zero value of BeeID, written BeeID{} in the Go code. -/
def BeeID.empty : BeeID := ⟨0, 0, 0⟩

/-- Message record. Modelled from the spec: Msg is {Type, From, To, Data,
NoReply flag}; the concrete msg struct is not among the sources, only its
accessors From() and NoReply() are used by the code under study. The Type
field is irrelevant to the bee-side claims and omitted here (the server
model below has its own message record with a type). -/
structure msg where
  MsgData : Nat
  MsgFrom : BeeID
  MsgTo : BeeID
  NoReplyFlag : Bool
  deriving DecidableEq, Repr

/-- Accessor m.From() of the Go msg. -/
def msg.From (m : msg) : BeeID := m.MsgFrom

/-- Accessor m.NoReply() of the Go msg. -/
def msg.NoReply (m : msg) : Bool := m.NoReplyFlag

/-- Modelled from the spec: newMsgFromData constructs a fresh Msg from a
payload, the sending bee and the destination bee; a freshly constructed
message is not marked NoReply. -/
def newMsgFromData (msgData : Nat) (sender : BeeID) (dst : BeeID) : msg :=
  ⟨msgData, sender, dst, false⟩

/-- Transaction status. The code tests TxOpen; TxNone is the Closed
status the spec describes. -/
inductive TxStatus
  | TxNone
  | TxOpen
  deriving DecidableEq, Repr

/-- One entry of the ordered operation log of the state layer; opaque. -/
abbrev Op := Nat

/-- Per-bee transaction record, from the data model: {Status, Generation,
Seq, Msgs, Ops}. -/
structure Tx where
  Status : TxStatus
  Generation : Nat
  Seq : Nat
  Msgs : List msg
  Ops : List Op
  deriving DecidableEq, Repr

/-- Tx.IsOpen() of the Go code: the transaction is open iff its status is
TxOpen. -/
def Tx.IsOpen (t : Tx) : Bool := t.Status == TxStatus.TxOpen

/-- Modelled from the spec: Tx.AddMsg appends a buffered message to Msgs
(buffering order is append order). -/
def Tx.AddMsg (t : Tx) (m : msg) : Tx := { t with Msgs := t.Msgs ++ [m] }

/-- Modelled from the spec: Tx.Reset closes the record (Status back to
Closed, buffered Msgs and Ops discarded). Seq is the monotonic per-bee
counter and survives the reset, since BeginTx increments it in place. -/
def Tx.Reset (t : Tx) : Tx :=
  { t with Status := TxStatus.TxNone, Msgs := [], Ops := [] }

/-- Errors the embedded operations can return. -/
inductive BeeError
  | anotherTxOpen
  | stateTxAlreadyOpen
  | noStateTxOpen
  | cannotReply
  | replicationFailed (code : Nat)
  deriving DecidableEq, Repr

/-- Side effects of bee operations, in program order. -/
inductive Event
  | emit (m : msg)
  | apply (ops : List Op)
  | replicate (t : Tx)
  | notify (seq : Nat)
  deriving DecidableEq, Repr

/-- Modelled from the spec: the transactional state layer (State/Dict
contract, §4.5). committed is the local partition (the writes already
applied); pending is the ordered operation log of the writes accumulated
since BeginTx, present exactly while a state-layer transaction is open. -/
structure TxState where
  committed : List Op
  pending : Option (List Op)
  deriving DecidableEq, Repr

/-- Modelled from the spec: begin hook of the state layer; starts
transactional tracking, failing if tracking is already active. -/
def TxState.BeginTx (s : TxState) : TxState × Option BeeError :=
  match s.pending with
  | some _ => (s, some BeeError.stateTxAlreadyOpen)
  | none => ({ s with pending := some [] }, none)

/-- Modelled from the spec: commit hook of the state layer; applies the
pending operation log to the local partition (recorded as an apply
event) and ends tracking. Committing with no open state transaction is
an error. -/
def TxState.CommitTx (s : TxState) : TxState × List Event × Option BeeError :=
  match s.pending with
  | none => (s, [], some BeeError.noStateTxOpen)
  | some l => (⟨s.committed ++ l, none⟩, [Event.apply l], none)

/-- Modelled from the spec: abort hook of the state layer; discards the
pending operation log, leaving the partition untouched. -/
def TxState.AbortTx (s : TxState) : TxState × Option BeeError :=
  match s.pending with
  | none => (s, some BeeError.noStateTxOpen)
  | some _ => ({ s with pending := none }, none)

/-- Modelled from the spec: Tx() of the state layer yields the ordered
operation log of the writes since BeginTx (empty when none is open). -/
def TxState.Tx (s : TxState) : List Op := s.pending.getD []

/-- Modelled from the spec: a Dict write while a state transaction is
open accumulates in the pending log rather than applying immediately;
outside a transaction it applies directly to the partition. -/
def TxState.put (s : TxState) (op : Op) : TxState :=
  match s.pending with
  | some l => { s with pending := some (l ++ [op]) }
  | none => { s with committed := s.committed ++ [op] }

/-- Colony of a bee; only the Generation epoch is relevant to the claims
(Members elided). -/
structure Colony where
  Generation : Nat
  deriving DecidableEq, Repr

/-- App of a bee; only its replication factor is relevant here.
ReplicationFactor is the method b.app.ReplicationFactor() of the code. -/
structure App where
  ReplicationFactor : Nat
  deriving DecidableEq, Repr

/-- The per-bee state the embedded methods act on: the bee's colony view
(colonyUnsafe() and b.beeColony both denote it), the transaction record
b.tx, the transactional state layer behind b.txState(), the app, and the
bee's own identity b.id(). -/
structure localBee where
  beeColony : Colony
  tx : Tx
  state : TxState
  app : App
  bid : BeeID
  deriving DecidableEq, Repr

/-- Outcome of an operation that may call glog.Fatalf: either a normal
return, or a fatal process termination carrying the triggering error and
the side effects already performed. -/
inductive GoResult (α : Type)
  | ret (a : α)
  | fatal (e : BeeError) (evs : List Event)
  deriving DecidableEq, Repr

/-- doEmit of the code: hands the message to the hive for forwarding;
recorded as an emit event. -/
def localBee.doEmit (b : localBee) (m : msg) : localBee × List Event :=
  (b, [Event.emit m])

/-- bufferOrEmit of the code: if no transaction is open the message is
emitted immediately, otherwise it is appended to the open transaction's
buffered Msgs and nothing is sent. -/
def localBee.bufferOrEmit (b : localBee) (m : msg) : localBee × List Event :=
  if b.tx.IsOpen = false then b.doEmit m
  else ({ b with tx := b.tx.AddMsg m }, [])

/-- Emit of the code: constructs a Msg from the payload with the bee as
sender and the empty BeeID as destination, then buffers or emits it. -/
def localBee.Emit (b : localBee) (msgData : Nat) : localBee × List Event :=
  b.bufferOrEmit (newMsgFromData msgData b.bid BeeID.empty)

/-- SendToBee of the code: constructs a Msg addressed to the given bee,
then buffers or emits it. -/
def localBee.SendToBee (b : localBee) (msgData : Nat) (dst : BeeID) :
    localBee × List Event :=
  b.bufferOrEmit (newMsgFromData msgData b.bid dst)

/-- ReplyTo of the code: errors without any effect when the original
message is marked NoReply, otherwise behaves as SendToBee back to the
original sender and returns nil. -/
def localBee.ReplyTo (b : localBee) (thatMsg : msg) (replyData : Nat) :
    (localBee × List Event) × Option BeeError :=
  if thatMsg.NoReply then ((b, []), some BeeError.cannotReply)
  else (b.SendToBee replyData thatMsg.From, none)

/-- Outcome of SendToCellKey: the code calls glog.Fatal, which logs and
terminates the process, so the lines after it (newMsgFromData and
bufferOrEmit) are unreachable dead code; the sent constructor exists only
to state that it is never produced. -/
inductive SendToCellKeyResult
  | fatalNotImplemented
  | sent (b : localBee) (evs : List Event)
  deriving DecidableEq, Repr

/-- SendToCellKey of the code: unconditionally glog.Fatal("Sendto is not
implemented.") before any message is constructed or buffered. -/
def localBee.SendToCellKey (b : localBee) (msgData : Nat) (dst : Nat)
    (dk : Nat) : SendToCellKeyResult :=
  SendToCellKeyResult.fatalNotImplemented

/-- BeginTx of the code: fails when a transaction is already open; then
starts the state layer's tracking (propagating its error); on success
sets Status to TxOpen, Generation to the current Colony generation and
increments Seq. -/
def localBee.BeginTx (b : localBee) : localBee × Option BeeError :=
  if b.tx.IsOpen then (b, some BeeError.anotherTxOpen)
  else
    match b.state.BeginTx with
    | (s, some e) => ({ b with state := s }, some e)
    | (s, none) =>
        let t : Tx :=
          { b.tx with
            Status := TxStatus.TxOpen
            Generation := b.beeColony.Generation
            Seq := b.tx.Seq + 1 }
        ({ b with state := s, tx := t }, none)

/-- emitTxMsgs of the code: emits every buffered message of the current
transaction, in buffering order (the nil check of the Go code is the
empty-list case of List.map). -/
def localBee.emitTxMsgs (b : localBee) : List Event :=
  b.tx.Msgs.map Event.emit

/-- doCommitTx of the code: emits the buffered messages, commits the
state layer, and (by the deferred Tx.Reset) resets the transaction record
on every path, returning the state layer's error if any. -/
def localBee.doCommitTx (b : localBee) : localBee × List Event × Option BeeError :=
  let evs := b.emitTxMsgs
  match b.state.CommitTx with
  | (s, evs2, e) => ({ b with state := s, tx := b.tx.Reset }, evs ++ evs2, e)

/-- AbortTx of the code: a no-op returning nil when no transaction is
open; otherwise resets the transaction record and rolls back the state
layer, returning its result. -/
def localBee.AbortTx (b : localBee) : localBee × Option BeeError :=
  if b.tx.IsOpen = false then (b, none)
  else
    match b.state.AbortTx with
    | (s, e) => ({ b with tx := b.tx.Reset, state := s }, e)

/-- CommitTx of the code, line by line: nil when no transaction is open;
refresh tx.Generation from colonyUnsafe(); when the replication factor is
below 2 run doCommitTx (its result is discarded and execution falls
through); set tx.Ops from the state layer's log; call replicateTx —
modelled from the spec as an oracle replErr giving the replication
outcome, the submitted record recorded as a replicate event — aborting
and returning the error on failure; then doCommitTx, escalating its error
via glog.Fatalf; finally the best-effort notifyCommitTx(tx.Seq), whose
error is only logged, recorded as a notify event. -/
def localBee.CommitTx (b : localBee) (replErr : Option BeeError) :
    GoResult (localBee × List Event × Option BeeError) :=
  if b.tx.IsOpen = false then GoResult.ret (b, [], none)
  else
    let b1 : localBee :=
      { b with tx := { b.tx with Generation := b.beeColony.Generation } }
    match (if b1.app.ReplicationFactor < 2 then b1.doCommitTx
           else (b1, [], none)) with
    | (b2, evs1, _) =>
      let b3 : localBee := { b2 with tx := { b2.tx with Ops := b2.state.Tx } }
      let evR := Event.replicate b3.tx
      match replErr with
      | some e => GoResult.ret ((b3.AbortTx).1, evs1 ++ [evR], some e)
      | none =>
        match b3.doCommitTx with
        | (_, evs2, some e) => GoResult.fatal e (evs1 ++ [evR] ++ evs2)
        | (b4, evs2, none) =>
            GoResult.ret
              (b4, evs1 ++ [evR] ++ evs2 ++ [Event.notify b4.tx.Seq], none)

/-- Operations a handler can perform on its bee, used to reason about
whole Begin→(Commit|Abort) cycles. commitTx carries the replication
oracle's outcome for that call; dictPut is a Dict write. -/
inductive BeeOp
  | beginTx
  | commitTx (replErr : Option BeeError)
  | abortTx
  | emit (d : Nat)
  | sendToBee (d : Nat) (dst : BeeID)
  | replyTo (m : msg) (d : Nat)
  | dictPut (op : Op)
  deriving DecidableEq, Repr

/-- Small-step execution of one bee operation; none models a fatal
process termination. -/
def stepBee (b : localBee) (op : BeeOp) : Option localBee :=
  match op with
  | BeeOp.beginTx => some (b.BeginTx).1
  | BeeOp.commitTx re =>
      match b.CommitTx re with
      | GoResult.ret (b', _, _) => some b'
      | GoResult.fatal _ _ => none
  | BeeOp.abortTx => some (b.AbortTx).1
  | BeeOp.emit d => some (b.Emit d).1
  | BeeOp.sendToBee d dst => some (b.SendToBee d dst).1
  | BeeOp.replyTo m d => some ((b.ReplyTo m d).1).1
  | BeeOp.dictPut op => some { b with state := b.state.put op }

/-- Execution of a sequence of bee operations. -/
def runBee (b : localBee) : List BeeOp → Option localBee
  | [] => some b
  | op :: ops =>
      match stepBee b op with
      | none => none
      | some b' => runBee b' ops

/-- Wire record sent at connection start to address a bee
(actor/server.go); actor names are opaque Nats. -/
structure RcvrId where
  ActorName : Nat
  Id : Nat
  deriving DecidableEq, Repr

/-- Message record decoded from a connection body; only its type drives
handler dispatch. -/
structure smsg where
  mtype : Nat
  payload : Nat
  deriving DecidableEq, Repr

/-- Handlers are opaque. -/
abbrev Handler := Nat

/-- The stage state handleConn reads: the registered actor names
(s.actor succeeds exactly on them), the RcvrIds that the control loop
resolves to a receiver (the findRcvr round trip), and the handler
registrations s.mappers flattened to (message type, actor name, handler)
triples in registration order. -/
structure stage where
  actors : List Nat
  receivers : List RcvrId
  mappers : List (Nat × Nat × Handler)
  deriving DecidableEq, Repr

/-- Handler list for one (actor, message type) pair: the registrations
for the message type whose mapper belongs to the named actor, in
registration order. The per-session handlers cache of the Go code is
semantically transparent (the mappers do not change within a session)
and therefore not modelled. -/
def handlersFor (s : stage) (an : Nat) (t : Nat) : List Handler :=
  (s.mappers.filter (fun r => r.1 == t && r.2.1 == an)).map (fun r => r.2.2)

/-- Observable per-connection actions of handleConn, in order: a boolean
written back on the wire, or one (message, handler) pair enqueued into
the receiver. Closing the connection writes nothing. -/
inductive ConnEvent
  | wrote (b : Bool)
  | enq (m : smsg) (h : Handler)
  deriving DecidableEq, Repr

/-- Decode-and-enqueue loop of handleConn: the connection body is a list
of decode outcomes (none is a decode failure, which terminates the
session); each successfully decoded message is enqueued once per
matching handler. -/
def processMsgs (s : stage) (an : Nat) : List (Option smsg) → List ConnEvent
  | [] => []
  | none :: _ => []
  | some m :: rest =>
      (handlersFor s an m.mtype).map (ConnEvent.enq m) ++ processMsgs s an rest

/-- handleConn of actor/server.go: decode one RcvrId; if the actor name
does not resolve, or the control loop does not resolve the receiver,
return with nothing written (the deferred conn.Close only closes);
otherwise write the boolean true acknowledgment and enter the
decode-and-enqueue loop. -/
def handleConn (s : stage) (id : RcvrId) (input : List (Option smsg)) :
    List ConnEvent :=
  if (s.actors.contains id.ActorName) = false then []
  else if (s.receivers.contains id) = false then []
  else ConnEvent.wrote true :: processMsgs s id.ActorName input

/-
Concrete inputs used by the claim theorems and witnesses below.
-/

/-- Identity of the bee under study in the concrete scenarios. -/
def bid1 : BeeID := ⟨1, 2, 3⟩

/-- Destination bee for SendToBee in the concrete scenarios. -/
def bid2 : BeeID := ⟨1, 2, 9⟩

/-- Message buffered by Emit in the replication-failure scenario. -/
def msgC1 : msg := newMsgFromData 100 bid1 BeeID.empty

/-- Bee with replication factor 1, an open transaction holding one
buffered message and one pending state write. -/
def beeC1 : localBee :=
  { beeColony := ⟨7⟩
    tx := { Status := TxStatus.TxOpen, Generation := 7, Seq := 4,
            Msgs := [msgC1], Ops := [] }
    state := { committed := [], pending := some [11] }
    app := ⟨1⟩
    bid := bid1 }

/-- Message emitted first (Emit) in the fast-path scenario. -/
def msgC2a : msg := newMsgFromData 201 bid1 BeeID.empty

/-- Message emitted second (SendToBee) in the fast-path scenario. -/
def msgC2b : msg := newMsgFromData 202 bid1 bid2

/-- Bee with replication factor 1, an open transaction holding two
buffered messages (buffered in the order msgC2a, msgC2b) and one pending
state write. -/
def beeC2 : localBee :=
  { beeColony := ⟨5⟩
    tx := { Status := TxStatus.TxOpen, Generation := 5, Seq := 2,
            Msgs := [msgC2a, msgC2b], Ops := [] }
    state := { committed := [], pending := some [21] }
    app := ⟨1⟩
    bid := bid1 }

/-- Bee with replication factor 2 and a closed (freshly reset)
transaction record. -/
def beeW0 : localBee :=
  { beeColony := ⟨1⟩
    tx := { Status := TxStatus.TxNone, Generation := 0, Seq := 0,
            Msgs := [], Ops := [] }
    state := { committed := [], pending := none }
    app := ⟨2⟩
    bid := bid1 }

/-- beeW0 after one successful BeginTx. -/
def beeW1 : localBee :=
  { beeW0 with
    state := { committed := [], pending := some [] }
    tx := { Status := TxStatus.TxOpen, Generation := 1, Seq := 1,
            Msgs := [], Ops := [] } }

/-- Bee with replication factor 2 and an open transaction: one buffered
message and one pending state write, used for the commit-success
witness. -/
def beeW2 : localBee :=
  { beeColony := ⟨9⟩
    tx := { Status := TxStatus.TxOpen, Generation := 9, Seq := 6,
            Msgs := [msgC1], Ops := [] }
    state := { committed := [40], pending := some [41] }
    app := ⟨2⟩
    bid := bid1 }

/-- Claim C10: for every input, SendToCellKey never sends a message: it
unconditionally terminates the program with a fatal error (glog.Fatal)
before constructing or buffering the Msg, regardless of whether a
transaction is Open. -/
theorem sendToCellKey_always_fatal (b : localBee) (d dst dk : Nat) :
    b.SendToCellKey d dst dk = SendToCellKeyResult.fatalNotImplemented :=
  rfl

/-- Claim C9: for every bee, calling CommitTx when no transaction is
Open is a no-op that returns nil: no message is sent, no replication is
attempted (no event of any kind is produced), and the bee, in particular
its transaction record, is unchanged. -/
theorem commitTx_closed_noop (b : localBee) (replErr : Option BeeError)
    (h : b.tx.IsOpen = false) :
    b.CommitTx replErr = GoResult.ret (b, [], none) := by
  unfold localBee.CommitTx
  simp [h]

/-- Witness for commitTx_closed_noop at the concrete closed bee beeW0. -/
theorem commitTx_closed_noop_witness :
    beeW0.tx.IsOpen = false ∧
      beeW0.CommitTx (some (BeeError.replicationFailed 3)) =
        GoResult.ret (beeW0, [], none) :=
  ⟨by decide, commitTx_closed_noop beeW0 (some (BeeError.replicationFailed 3))
      (by decide)⟩

/-- Claim C6: for every message emission via Emit or SendToBee: if the
bee's transaction is Open, the constructed Msg is appended to the
transaction's buffered Msgs and nothing is sent immediately (no event);
if no transaction is Open, the Msg is sent immediately and the bee is
unchanged. -/
theorem bufferOrEmit_spec (b : localBee) (d : Nat) (dst : BeeID) :
    (b.tx.IsOpen = true →
      b.Emit d =
        ({ b with tx :=
            { b.tx with Msgs := b.tx.Msgs ++ [newMsgFromData d b.bid BeeID.empty] } },
          []) ∧
      b.SendToBee d dst =
        ({ b with tx :=
            { b.tx with Msgs := b.tx.Msgs ++ [newMsgFromData d b.bid dst] } },
          [])) ∧
    (b.tx.IsOpen = false →
      b.Emit d = (b, [Event.emit (newMsgFromData d b.bid BeeID.empty)]) ∧
      b.SendToBee d dst = (b, [Event.emit (newMsgFromData d b.bid dst)])) := by
  constructor
  · intro h
    constructor <;>
      simp [localBee.Emit, localBee.SendToBee, localBee.bufferOrEmit,
        localBee.doEmit, Tx.AddMsg, h]
  · intro h
    constructor <;>
      simp [localBee.Emit, localBee.SendToBee, localBee.bufferOrEmit,
        localBee.doEmit, Tx.AddMsg, h]

/-- Witness for bufferOrEmit_spec at the open-transaction bee beeC1 with
payload 55 sent to bid2. -/
theorem bufferOrEmit_spec_witness :
    beeC1.tx.IsOpen = true ∧
      (beeC1.Emit 55 =
        ({ beeC1 with tx :=
            { beeC1.tx with
              Msgs := beeC1.tx.Msgs ++ [newMsgFromData 55 beeC1.bid BeeID.empty] } },
          []) ∧
      beeC1.SendToBee 55 bid2 =
        ({ beeC1 with tx :=
            { beeC1.tx with
              Msgs := beeC1.tx.Msgs ++ [newMsgFromData 55 beeC1.bid bid2] } },
          [])) :=
  ⟨by decide, (bufferOrEmit_spec beeC1 55 bid2).1 (by decide)⟩

/-- Claim C7: ReplyTo on a NoReply-marked message returns an explicit
error, sends nothing and changes nothing; on any other message it is
exactly SendToBee of the reply data back to the original sender (the
message's From bee) and returns no error — in particular, with no open
transaction the reply is emitted immediately, addressed to the sender. -/
theorem replyTo_spec (b : localBee) (m : msg) (d : Nat) :
    (m.NoReply = true →
      b.ReplyTo m d = ((b, []), some BeeError.cannotReply)) ∧
    (m.NoReply = false →
      b.ReplyTo m d = (b.SendToBee d m.From, none) ∧
      (b.tx.IsOpen = false →
        b.ReplyTo m d = ((b, [Event.emit (newMsgFromData d b.bid m.From)]), none))) := by
  constructor
  · intro h
    simp [localBee.ReplyTo, h]
  · intro h
    constructor
    · simp [localBee.ReplyTo, h]
    · intro hc
      simp [localBee.ReplyTo, localBee.SendToBee, localBee.bufferOrEmit,
        localBee.doEmit, h, hc]

/-- Witness for replyTo_spec: a NoReply message is refused with no
effect, at the concrete bee beeW0. -/
theorem replyTo_spec_witness :
    (⟨77, bid2, bid1, true⟩ : msg).NoReply = true ∧
      beeW0.ReplyTo ⟨77, bid2, bid1, true⟩ 12 =
        ((beeW0, []), some BeeError.cannotReply) :=
  ⟨by decide, (replyTo_spec beeW0 ⟨77, bid2, bid1, true⟩ 12).1 (by decide)⟩

/-- Claim C4: BeginTx while a transaction is already Open returns an
error and leaves the bee — in particular the existing transaction's
Status, Generation, Seq, Msgs and Ops — completely untouched; a
successful BeginTx (no transaction open, state-layer tracking startable)
sets Generation to the current Colony.Generation, increments Seq, and
sets Status to Open, leaving Msgs and Ops as they were. -/
theorem beginTx_conflict_and_success (b : localBee) :
    (b.tx.IsOpen = true →
      b.BeginTx = (b, some BeeError.anotherTxOpen)) ∧
    (b.tx.IsOpen = false → b.state.pending = none →
      b.BeginTx =
        ({ b with
           state := { b.state with pending := some [] }
           tx := { b.tx with
                   Status := TxStatus.TxOpen
                   Generation := b.beeColony.Generation
                   Seq := b.tx.Seq + 1 } },
         none)) := by
  constructor
  · intro h
    simp [localBee.BeginTx, h]
  · intro h hp
    simp [localBee.BeginTx, TxState.BeginTx, h, hp]

/-- Witness for beginTx_conflict_and_success: the conflict case at the
open-transaction bee beeC2, and the success case at the closed bee
beeW0 (where it yields exactly beeW1). -/
theorem beginTx_conflict_and_success_witness :
    (beeC2.tx.IsOpen = true ∧
      beeC2.BeginTx = (beeC2, some BeeError.anotherTxOpen)) ∧
    (beeW0.tx.IsOpen = false ∧ beeW0.state.pending = none ∧
      beeW0.BeginTx =
        ({ beeW0 with
           state := { beeW0.state with pending := some [] }
           tx := { beeW0.tx with
                   Status := TxStatus.TxOpen
                   Generation := beeW0.beeColony.Generation
                   Seq := beeW0.tx.Seq + 1 } },
         none)) :=
  ⟨⟨by decide, (beginTx_conflict_and_success beeC2).1 (by decide)⟩,
   ⟨by decide, by decide,
    (beginTx_conflict_and_success beeW0).2 (by decide) (by decide)⟩⟩

/-- Claim C1 is refuted at this input (code_bug evidence): beeC1 has
replication factor 1, an open transaction with one buffered message and
one pending write. The missing early return after the fast-path
doCommitTx makes CommitTx fall through into replicateTx; when
replication fails, CommitTx does return the replication error, but the
buffered message msgC1 has already been forwarded (emit event), the
pending write 11 has been applied to the local partition, and the
follow-up AbortTx is a no-op on the already-reset record — not the
claimed clean rollback. -/
theorem commitTx_replication_failure_not_rolled_back :
    beeC1.CommitTx (some (BeeError.replicationFailed 0)) =
      GoResult.ret
        ({ beeC1 with
           tx := { Status := TxStatus.TxNone, Generation := 7, Seq := 4,
                   Msgs := [], Ops := [] }
           state := { committed := [11], pending := none } },
         [Event.emit msgC1, Event.apply [11],
          Event.replicate
            { Status := TxStatus.TxNone, Generation := 7, Seq := 4,
              Msgs := [], Ops := [] }],
         some (BeeError.replicationFailed 0)) := by
  decide

/-- Claim C2 is refuted at this input (code_bug evidence): beeC2 has
replication factor 1 and two buffered messages. CommitTx does apply the
local effects immediately (both emits and the apply of write 21 happen,
in buffering order), but then still submits a (by now reset) transaction
record to the replication collaborator — the replicate event — and when
that replication fails it returns the error, so the messages were
observed sent even though CommitTx did not return successfully. -/
theorem commitTx_fastpath_still_replicates :
    beeC2.CommitTx (some (BeeError.replicationFailed 1)) =
      GoResult.ret
        ({ beeC2 with
           tx := { Status := TxStatus.TxNone, Generation := 5, Seq := 2,
                   Msgs := [], Ops := [] }
           state := { committed := [21], pending := none } },
         [Event.emit msgC2a, Event.emit msgC2b, Event.apply [21],
          Event.replicate
            { Status := TxStatus.TxNone, Generation := 5, Seq := 2,
              Msgs := [], Ops := [] }],
         some (BeeError.replicationFailed 1)) := by
  decide

/-- Every action of the decode-and-enqueue loop is an enqueue; the loop
never writes on the wire. -/
theorem processMsgs_only_enqueues (s : stage) (an : Nat) :
    ∀ input e, e ∈ processMsgs s an input →
      ∃ m h, e = ConnEvent.enq m h := by
  intro input
  induction input with
  | nil => intro e he; simp [processMsgs] at he
  | cons o rest ih =>
    intro e he
    cases o with
    | none => simp [processMsgs] at he
    | some m =>
      simp only [processMsgs, List.mem_append] at he
      rcases he with he | he
      · rcases List.mem_map.mp he with ⟨h, _, rfl⟩
        exact ⟨m, h, rfl⟩
      · exact ih e he

/-- Claim C8: a connection whose RcvrId does not resolve to a receiver
(unknown actor name, or the control loop finds no receiver) produces no
action at all — in particular no boolean acknowledgment is written — and
nothing is enqueued; when the receiver resolves, the single boolean true
acknowledgment is the first action, and every subsequent action is an
enqueue of a decoded message (nothing else is ever written back). -/
theorem handleConn_ack_only_after_resolve (s : stage) (id : RcvrId)
    (input : List (Option smsg)) :
    ((s.actors.contains id.ActorName = false ∨
        s.receivers.contains id = false) →
      handleConn s id input = []) ∧
    (s.actors.contains id.ActorName = true →
      s.receivers.contains id = true →
      handleConn s id input =
        ConnEvent.wrote true :: processMsgs s id.ActorName input ∧
      ∀ e ∈ processMsgs s id.ActorName input,
        ∃ m h, e = ConnEvent.enq m h) := by
  constructor
  · intro h
    rcases h with h | h
    · unfold handleConn
      rw [h]
      rfl
    · unfold handleConn
      rw [h]
      rcases s.actors.contains id.ActorName <;> rfl
  · intro h1 h2
    refine ⟨?_, ?_⟩
    · unfold handleConn
      rw [h1, h2]
      rfl
    · intro e he
      exact processMsgs_only_enqueues s id.ActorName input e he

/-- Stage used by the handleConn witness: actor 2 is registered, the
RcvrId ⟨2, 3⟩ resolves, and message type 4 has one handler (8) for actor
2 and one (9) for another actor. -/
def stageW : stage :=
  { actors := [2]
    receivers := [⟨2, 3⟩]
    mappers := [(4, 2, 8), (4, 6, 9)] }

/-- Witness for handleConn_ack_only_after_resolve: the resolving branch
at the concrete stage stageW with a two-record body whose second record
fails to decode. -/
theorem handleConn_ack_only_after_resolve_witness :
    stageW.actors.contains (RcvrId.mk 2 3).ActorName = true ∧
    stageW.receivers.contains (RcvrId.mk 2 3) = true ∧
    (handleConn stageW ⟨2, 3⟩ [some ⟨4, 77⟩, none] =
      ConnEvent.wrote true ::
        processMsgs stageW (RcvrId.mk 2 3).ActorName [some ⟨4, 77⟩, none] ∧
    ∀ e ∈ processMsgs stageW (RcvrId.mk 2 3).ActorName [some ⟨4, 77⟩, none],
      ∃ m h, e = ConnEvent.enq m h) :=
  ⟨by decide, by decide,
   (handleConn_ack_only_after_resolve stageW ⟨2, 3⟩ [some ⟨4, 77⟩, none]).2
     (by decide) (by decide)⟩

/-- Claim C3: whenever CommitTx returns successfully on an open
transaction, the observable action sequence is exactly: the submission
of the transaction record to the replication service, then every
buffered Msg forwarded exactly once, in buffering order, then the apply
of the pending operation log to the local partition, then the
best-effort commit notification — so in particular each buffered message
is forwarded exactly once, in order, and all of them are flushed before
the Ops are applied. -/
theorem commitTx_success_forwards_once (b : localBee)
    (replErr : Option BeeError) (b' : localBee) (evs : List Event)
    (hopen : b.tx.IsOpen = true)
    (h : b.CommitTx replErr = GoResult.ret (b', evs, none)) :
    ∃ ops, b.state.pending = some ops ∧
      evs = Event.replicate
              { b.tx with Generation := b.beeColony.Generation, Ops := ops } ::
            (b.tx.Msgs.map Event.emit ++
              [Event.apply ops] ++ [Event.notify b.tx.Seq]) := by
  unfold localBee.CommitTx at h
  rw [hopen] at h
  by_cases hf : b.app.ReplicationFactor < 2
  · cases hp : b.state.pending with
    | none =>
      cases replErr with
      | some e =>
        simp [localBee.doCommitTx, localBee.emitTxMsgs, TxState.CommitTx,
          TxState.Tx, localBee.AbortTx, Tx.Reset, Tx.IsOpen, hf, hp] at h
      | none =>
        simp [localBee.doCommitTx, localBee.emitTxMsgs, TxState.CommitTx,
          TxState.Tx, Tx.Reset, Tx.IsOpen, hf, hp] at h
    | some ops =>
      cases replErr with
      | some e =>
        simp [localBee.doCommitTx, localBee.emitTxMsgs, TxState.CommitTx,
          TxState.Tx, localBee.AbortTx, Tx.Reset, Tx.IsOpen, hf, hp] at h
      | none =>
        simp [localBee.doCommitTx, localBee.emitTxMsgs, TxState.CommitTx,
          TxState.Tx, Tx.Reset, Tx.IsOpen, hf, hp] at h
  · cases hp : b.state.pending with
    | none =>
      cases replErr with
      | some e =>
        simp [localBee.doCommitTx, localBee.emitTxMsgs, TxState.CommitTx,
          TxState.Tx, localBee.AbortTx, Tx.Reset, Tx.IsOpen, hf, hp] at h
      | none =>
        simp [localBee.doCommitTx, localBee.emitTxMsgs, TxState.CommitTx,
          TxState.Tx, Tx.Reset, Tx.IsOpen, hf, hp] at h
    | some ops =>
      cases replErr with
      | some e =>
        simp [localBee.doCommitTx, localBee.emitTxMsgs, TxState.CommitTx,
          TxState.Tx, localBee.AbortTx, Tx.Reset, Tx.IsOpen, hf, hp] at h
      | none =>
        refine ⟨ops, rfl, ?_⟩
        simp [localBee.doCommitTx, localBee.emitTxMsgs, TxState.CommitTx,
          TxState.Tx, Tx.Reset, hf, hp] at h
        rw [← h.2]
        simp

/-- beeW2 after its successful CommitTx. -/
def beeW2c : localBee :=
  { beeW2 with
    tx := { Status := TxStatus.TxNone, Generation := 9, Seq := 6,
            Msgs := [], Ops := [] }
    state := { committed := [40, 41], pending := none } }

/-- Observable actions of the successful CommitTx on beeW2. -/
def evsW2 : List Event :=
  [Event.replicate
     { Status := TxStatus.TxOpen, Generation := 9, Seq := 6,
       Msgs := [msgC1], Ops := [41] },
   Event.emit msgC1, Event.apply [41], Event.notify 6]

/-- Witness for commitTx_success_forwards_once at the concrete bee beeW2
(replication factor 2, one buffered message, one pending write). -/
theorem commitTx_success_forwards_once_witness :
    beeW2.tx.IsOpen = true ∧
    beeW2.CommitTx none = GoResult.ret (beeW2c, evsW2, none) ∧
    (∃ ops, beeW2.state.pending = some ops ∧
      evsW2 = Event.replicate
                { beeW2.tx with
                  Generation := beeW2.beeColony.Generation
                  Ops := ops } ::
              (beeW2.tx.Msgs.map Event.emit ++
                [Event.apply ops] ++ [Event.notify beeW2.tx.Seq])) :=
  ⟨by decide, by decide,
   commitTx_success_forwards_once beeW2 none beeW2c evsW2 (by decide)
     (by decide)⟩

/-- Resetting a transaction record preserves its Seq counter. -/
theorem txReset_seq (t : Tx) : t.Reset.Seq = t.Seq := rfl

/-- doCommitTx never changes the Seq counter. -/
theorem doCommitTx_seq (b : localBee) :
    ((b.doCommitTx).1).tx.Seq = b.tx.Seq := by
  unfold localBee.doCommitTx
  cases hp : b.state.pending <;>
    simp [TxState.CommitTx, Tx.Reset, hp]

/-- AbortTx never changes the Seq counter. -/
theorem abortTx_seq (b : localBee) :
    ((b.AbortTx).1).tx.Seq = b.tx.Seq := by
  unfold localBee.AbortTx
  by_cases h : b.tx.IsOpen = false
  · simp [h]
  · cases hp : b.state.pending <;>
      simp [TxState.AbortTx, Tx.Reset, h, hp]

/-- Every normal return of CommitTx leaves the Seq counter unchanged. -/
theorem commitTx_ret_seq (b : localBee) (replErr : Option BeeError)
    (b' : localBee) (evs : List Event) (e : Option BeeError)
    (h : b.CommitTx replErr = GoResult.ret (b', evs, e)) :
    b'.tx.Seq = b.tx.Seq := by
  unfold localBee.CommitTx at h
  by_cases ho : b.tx.IsOpen = false
  · simp [ho] at h
    rw [← h.1]
  · have hS : b.tx.Status = TxStatus.TxOpen := by
      simpa [Tx.IsOpen] using ho
    simp only [ho, if_false] at h
    by_cases hf : b.app.ReplicationFactor < 2 <;>
      cases hp : b.state.pending <;>
        cases replErr <;>
          first
          | (simp [localBee.doCommitTx, localBee.emitTxMsgs, TxState.CommitTx,
              TxState.Tx, localBee.AbortTx, TxState.AbortTx, Tx.Reset,
              Tx.IsOpen, hf, hp, hS] at h;
             rw [← h.1])
          | simp [localBee.doCommitTx, localBee.emitTxMsgs, TxState.CommitTx,
              TxState.Tx, localBee.AbortTx, TxState.AbortTx, Tx.Reset,
              Tx.IsOpen, hf, hp, hS] at h

/-- Every step of a bee either preserves the Seq counter or is a
successful BeginTx, which increments it by exactly one. -/
theorem stepBee_seq (b : localBee) (op : BeeOp) (b' : localBee)
    (h : stepBee b op = some b') :
    b'.tx.Seq = b.tx.Seq ∨
      (op = BeeOp.beginTx ∧ b'.tx.Seq = b.tx.Seq + 1) := by
  cases op with
  | beginTx =>
    simp only [stepBee] at h
    unfold localBee.BeginTx at h
    by_cases ho : b.tx.IsOpen
    · simp [ho] at h
      left
      rw [← h]
    · cases hp : b.state.pending with
      | some l =>
        simp [TxState.BeginTx, ho, hp] at h
        left
        rw [← h]
      | none =>
        simp [TxState.BeginTx, ho, hp] at h
        right
        exact ⟨rfl, by rw [← h]⟩
  | commitTx re =>
    simp only [stepBee] at h
    cases hc : b.CommitTx re with
    | ret a =>
      rw [hc] at h
      simp at h
      left
      rw [← h]
      exact commitTx_ret_seq b re a.1 a.2.1 a.2.2
        (by rw [hc])
    | fatal e evs => rw [hc] at h; simp at h
  | abortTx =>
    simp only [stepBee] at h
    left
    rw [← (Option.some.injEq _ _).mp h]
    exact abortTx_seq b
  | emit d =>
    simp only [stepBee] at h
    left
    unfold localBee.Emit localBee.bufferOrEmit localBee.doEmit at h
    by_cases hc : b.tx.IsOpen = false <;>
      simp [Tx.AddMsg, hc] at h <;> rw [← h]
  | sendToBee d dst =>
    simp only [stepBee] at h
    left
    unfold localBee.SendToBee localBee.bufferOrEmit localBee.doEmit at h
    by_cases hc : b.tx.IsOpen = false <;>
      simp [Tx.AddMsg, hc] at h <;> rw [← h]
  | replyTo m d =>
    simp only [stepBee] at h
    left
    unfold localBee.ReplyTo localBee.SendToBee localBee.bufferOrEmit
      localBee.doEmit at h
    by_cases hn : m.NoReply <;>
      by_cases hc : b.tx.IsOpen = false <;>
        simp [Tx.AddMsg, hn, hc] at h <;> rw [← h]
  | dictPut op =>
    simp only [stepBee] at h
    left
    rw [← (Option.some.injEq _ _).mp h]

/-- Along any executed operation sequence the Seq counter never
decreases. -/
theorem runBee_seq_le (ops : List BeeOp) (b b' : localBee)
    (h : runBee b ops = some b') : b.tx.Seq ≤ b'.tx.Seq := by
  induction ops generalizing b with
  | nil =>
    simp [runBee] at h
    rw [h]
  | cons op rest ih =>
    unfold runBee at h
    cases hs : stepBee b op with
    | none => rw [hs] at h; simp at h
    | some b1 =>
      rw [hs] at h
      rcases stepBee_seq b op b1 hs with heq | ⟨_, hinc⟩
      · rw [← heq]
        exact ih b1 h
      · calc b.tx.Seq ≤ b.tx.Seq + 1 := Nat.le_succ _
          _ = b1.tx.Seq := hinc.symm
          _ ≤ b'.tx.Seq := ih b1 h

/-- A successful BeginTx increments the Seq counter by exactly one. -/
theorem beginTx_success_seq (b : localBee)
    (h : (b.BeginTx).2 = none) :
    ((b.BeginTx).1).tx.Seq = b.tx.Seq + 1 := by
  unfold localBee.BeginTx at h ⊢
  by_cases ho : b.tx.IsOpen
  · simp [ho] at h
  · cases hp : b.state.pending with
    | some l => simp [TxState.BeginTx, ho, hp] at h
    | none => simp [TxState.BeginTx, ho, hp]

/-- Claim C5: along every executed Begin→(Commit|Abort) history of a
bee, Seq is monotone — the final Seq is at least the initial one — and
from any reachable state a successful BeginTx yields Seq one greater
than the current value (hence strictly greater than the Seq of every
earlier transaction, by monotonicity over the prefix), while no step
other than a (successful) BeginTx ever changes Seq. -/
theorem seq_strictly_increases (b : localBee) (ops : List BeeOp)
    (b' : localBee) (h : runBee b ops = some b') :
    b.tx.Seq ≤ b'.tx.Seq ∧
    ((b'.BeginTx).2 = none →
      ((b'.BeginTx).1).tx.Seq = b'.tx.Seq + 1) ∧
    (∀ op b'', stepBee b' op = some b'' → b''.tx.Seq ≠ b'.tx.Seq →
      op = BeeOp.beginTx ∧ b''.tx.Seq = b'.tx.Seq + 1) := by
  refine ⟨runBee_seq_le ops b b' h, beginTx_success_seq b', ?_⟩
  intro op b'' hs hne
  rcases stepBee_seq b' op b'' hs with heq | hinc
  · exact absurd heq hne
  · exact hinc

/-- Witness for seq_strictly_increases: beeW0 runs one successful
BeginTx reaching beeW1 (Seq goes 0 to 1), and the three conclusions are
obtained at that concrete history. -/
theorem seq_strictly_increases_witness :
    beeW0.tx.Seq ≤ beeW1.tx.Seq ∧
    ((beeW1.BeginTx).2 = none →
      ((beeW1.BeginTx).1).tx.Seq = beeW1.tx.Seq + 1) ∧
    (∀ op b'', stepBee beeW1 op = some b'' → b''.tx.Seq ≠ beeW1.tx.Seq →
      op = BeeOp.beginTx ∧ b''.tx.Seq = beeW1.tx.Seq + 1) :=
  seq_strictly_increases beeW0 [BeeOp.beginTx] beeW1 (by decide)
